import Mathlib

/-!
Shallow embedding of the heuristic linguistic risk scorer of the
Fake-news-Detection-system repository (src/text_analyzer.py) together with
the verdict/confidence logic of its caller (src/app.py, predict_news).

Modelling conventions:
* text is a `List Char`;
* Python floats are modelled by exact rationals `ℚ`;
* character classes (whitespace, alphabetic, uppercase) are modelled at
  ASCII granularity, matching the ASCII keyword lists of the source.
-/

namespace FakeNews

/-- ASCII whitespace, the model of the character class used by Python's
str.strip and str.split. -/
def pyIsSpace (c : Char) : Bool :=
  c == ' ' || c == '\t' || c == '\n' || c == '\r' || c == '\x0b' || c == '\x0c'

/-- Model of Python str.strip: drop leading and trailing whitespace. -/
def pyStrip (s : List Char) : List Char :=
  ((s.dropWhile pyIsSpace).reverse.dropWhile pyIsSpace).reverse

/-- Helper for `wordCount`: the Bool records whether the previous character
was part of a word. -/
def wordCountAux : List Char → Bool → Nat
  | [], _ => 0
  | c :: cs, inWord =>
    if pyIsSpace c then wordCountAux cs false
    else (if inWord then 0 else 1) + wordCountAux cs true

/-- Model of len(text.split()): the number of maximal runs of
non-whitespace characters. -/
def wordCount (s : List Char) : Nat := wordCountAux s false

/-- pat begins the list s (character-wise comparison). -/
def startsWithL : List Char → List Char → Bool
  | [], _ => true
  | _ :: _, [] => false
  | p :: ps, c :: cs => p == c && startsWithL ps cs

/-- Model of Python substring containment (`pat in s`). -/
def containsSub (pat : List Char) : List Char → Bool
  | [] => startsWithL pat []
  | c :: cs => startsWithL pat (c :: cs) || containsSub pat cs

/-- Model of text.count(c) for a single character. -/
def countChar (ch : Char) (s : List Char) : Nat :=
  (s.filter (fun c => c == ch)).length

/-- Model of text.count(str) for the two-character sequence "?!":
non-overlapping left-to-right scan. -/
def countInterrobang : List Char → Nat
  | a :: b :: rest =>
    if a == '?' && b == '!' then 1 + countInterrobang rest
    else countInterrobang (b :: rest)
  | _ => 0

/-- Helper for `countRunsGe`: the Nat accumulator is the length of the
current run of ch ending just before the remaining input. -/
def countRunsGeAux (ch : Char) (n : Nat) : List Char → Nat → Nat
  | [], run => if n ≤ run then 1 else 0
  | c :: cs, run =>
    if c == ch then countRunsGeAux ch n cs (run + 1)
    else (if n ≤ run then 1 else 0) + countRunsGeAux ch n cs 0

/-- Model of len(re.findall(ch{n,}, text)) for a single character ch with a
greedy quantifier: the number of maximal runs of ch of length at least n. -/
def countRunsGe (ch : Char) (n : Nat) (s : List Char) : Nat :=
  countRunsGeAux ch n s 0

/-- The fixed list of 20 sensationalist keywords of TextAnalyzer. -/
def sensational_keywords : List String :=
  ["shocking", "banned", "exposed", "truth", "breaking",
   "urgent", "alert", "scandal", "secret", "revealed",
   "unbelievable", "miracle", "warning", "danger", "crisis",
   "leaked", "exclusive", "bombshell", "proof", "evidence"]

/-- The fixed list of 9 emotional trigger words of TextAnalyzer. -/
def emotional_words : List String :=
  ["fear", "angry", "hate", "love", "terrifying",
   "amazing", "horrible", "disgusting", "outrageous"]

/-- ASCII lowercasing of the text, the model of text.lower(). -/
def lowerText (s : List Char) : List Char := s.map Char.toLower

/-- sum(1 for word in kws if word in text_lower): the number of keywords of
the list that occur as a (case-insensitive) substring of the text. -/
def keywordCount (kws : List String) (text : List Char) : Nat :=
  kws.countP (fun w => containsSub w.data (lowerText text))

/-- TextAnalyzer._check_sensationalism. -/
def check_sensationalism (text : List Char) : ℚ :=
  min ((keywordCount sensational_keywords text : ℚ) / 3) 1

/-- TextAnalyzer._check_emotional_content. -/
def check_emotional_content (text : List Char) : ℚ :=
  min ((keywordCount emotional_words text : ℚ) / 4) 1

/-- TextAnalyzer._check_punctuation. -/
def check_punctuation (text : List Char) : ℚ :=
  let exclamations : ℚ := countChar '!' text
  let questions : ℚ := countChar '?' text
  let interrobangs : ℚ := countInterrobang text
  let ellipses : ℚ := countRunsGe '.' 3 text
  let multiple_exclaim : ℚ := countRunsGe '!' 2 text
  let total_anomalies : ℚ :=
    exclamations / 3 + questions / 3 + interrobangs * 2 +
      ellipses * (3 / 2) + multiple_exclaim * 3
  min (total_anomalies / 5) 1

/-- TextAnalyzer._check_capitalization (the variable caps_frac is named
caps_ratio in the source). -/
def check_capitalization (text : List Char) : ℚ :=
  if text = [] then 0
  else
    let letters := text.filter Char.isAlpha
    if letters = [] then 0
    else
      let caps_frac : ℚ := (letters.countP Char.isUpper : ℚ) / (letters.length : ℚ)
      if 3 / 5 < caps_frac then 1
      else if 2 / 5 < caps_frac then 7 / 10
      else if 1 / 5 < caps_frac then 2 / 5
      else caps_frac * 2

/-- TextAnalyzer._check_length.  The headline argument is present in the
source signature but unused by the scoring rule. -/
def check_length (text : List Char) (headline : String) : ℚ :=
  let word_count := wordCount text
  if word_count < 50 then 1 - (word_count : ℚ) / 50
  else if word_count < 100 then 3 / 10
  else 0

/-- Flag emitted for a sensational sub-score above 0.5. -/
def flagSensational : String := "⚠️ Sensationalist language detected"

/-- Flag emitted for a punctuation sub-score above 0.6. -/
def flagPunctuation : String := "⚠️ Excessive punctuation"

/-- Flag emitted for a caps sub-score above 0.6. -/
def flagCaps : String := "⚠️ Excessive capitalization (shouting)"

/-- Flag emitted for a length sub-score above 0.7. -/
def flagShort : String := "⚠️ Suspiciously short content"

/-- TextAnalyzer._generate_flags. -/
def generate_flags (sensational punctuation caps length : ℚ) : List String :=
  (if 1 / 2 < sensational then [flagSensational] else []) ++
  (if 3 / 5 < punctuation then [flagPunctuation] else []) ++
  (if 3 / 5 < caps then [flagCaps] else []) ++
  (if 7 / 10 < length then [flagShort] else [])

/-- TextAnalyzer.get_verdict. -/
def get_verdict (risk_score : ℚ) : String :=
  if 7 / 10 < risk_score then "HIGH RISK"
  else if 2 / 5 < risk_score then "MODERATE RISK"
  else "LOW RISK"

/-- Model of Python round(x, 3) (round half to even), under exact rational
arithmetic. -/
def pyRound3 (q : ℚ) : ℚ :=
  let x : ℚ := q * 1000
  let f : ℤ := Int.floor x
  let r : ℚ := x - f
  let n : ℤ :=
    if r < 1 / 2 then f
    else if 1 / 2 < r then f + 1
    else if f % 2 = 0 then f else f + 1
  (n : ℚ) / 1000

/-- The details dictionary built by TextAnalyzer.analyze in the successful
case: the five sub-scores and the overall risk, rounded to 3 decimals for
reporting, plus the flags. -/
structure Details where
  sensational_score : ℚ
  punctuation_score : ℚ
  caps_score : ℚ
  length_score : ℚ
  emotional_score : ℚ
  overall_risk : ℚ
  flags : List String
deriving DecidableEq

/-- The second component of the pair returned by analyze: either the error
dictionary or the details dictionary. -/
inductive AnalysisOutcome where
  | error (msg : String)
  | ok (d : Details)
deriving DecidableEq

/-- The flags of an outcome (empty for the error outcome). -/
def flagsOfOutcome : AnalysisOutcome → List String
  | .error _ => []
  | .ok d => d.flags

/-- The combined text of TextAnalyzer.analyze: f-string concatenation of
headline, a single space, and body, then .strip(). -/
def combined (headline body : String) : List Char :=
  pyStrip (headline.data ++ ' ' :: body.data)

/-- max(0.0, min(1.0, q)). -/
def clamp01 (q : ℚ) : ℚ := max 0 (min 1 q)

/-- TextAnalyzer.analyze: the (risk_score, details) pair. -/
def analyze (headline : String) (body : String) : ℚ × AnalysisOutcome :=
  let text := combined headline body
  if text = [] then (0, .error "Empty text")
  else
    let sensational_score := check_sensationalism text
    let punctuation_score := check_punctuation text
    let caps_score := check_capitalization text
    let length_score := check_length text headline
    let emotional_score := check_emotional_content text
    let risk_score := clamp01 (sensational_score * (3 / 10) +
      punctuation_score * (1 / 5) + caps_score * (1 / 5) +
      length_score * (3 / 20) + emotional_score * (3 / 20))
    (risk_score,
      .ok { sensational_score := pyRound3 sensational_score
            punctuation_score := pyRound3 punctuation_score
            caps_score := pyRound3 caps_score
            length_score := pyRound3 length_score
            emotional_score := pyRound3 emotional_score
            overall_risk := pyRound3 risk_score
            flags := generate_flags sensational_score punctuation_score
              caps_score length_score })

/-- The weighted combination of predict_news in src/app.py:
final = ml_fake_score*0.6 + heuristic_score*0.4. -/
def final_score (ml_fake_score heuristic_score : ℚ) : ℚ :=
  ml_fake_score * (3 / 5) + heuristic_score * (2 / 5)

/-- The verdict/color/confidence branch of predict_news in src/app.py, as a
function of the final score (confidence is reported in percent). -/
def predict_verdict (final : ℚ) : String × String × ℚ :=
  if 7 / 10 < final then ("HIGH RISK - Likely Fake News", "danger", final * 100)
  else if 2 / 5 < final then ("MODERATE RISK - Verify Sources", "warning", final * 100)
  else ("LOW RISK - Appears Legitimate", "success", (1 - final) * 100)

/-! ## Bounds of the individual sub-scores -/

theorem clamp01_nonneg (q : ℚ) : 0 ≤ clamp01 q := le_max_left 0 _

theorem clamp01_le_one (q : ℚ) : clamp01 q ≤ 1 :=
  max_le (by norm_num) (min_le_left 1 q)

theorem check_sensationalism_nonneg (t : List Char) : 0 ≤ check_sensationalism t :=
  le_min (by positivity) (by norm_num)

theorem check_sensationalism_le_one (t : List Char) : check_sensationalism t ≤ 1 :=
  min_le_right _ _

theorem check_emotional_content_nonneg (t : List Char) : 0 ≤ check_emotional_content t :=
  le_min (by positivity) (by norm_num)

theorem check_emotional_content_le_one (t : List Char) : check_emotional_content t ≤ 1 :=
  min_le_right _ _

theorem check_punctuation_nonneg (t : List Char) : 0 ≤ check_punctuation t := by
  simp only [check_punctuation]
  exact le_min (by positivity) (by norm_num)

theorem check_punctuation_le_one (t : List Char) : check_punctuation t ≤ 1 := by
  simp only [check_punctuation]
  exact min_le_right _ _

theorem check_capitalization_nonneg (t : List Char) : 0 ≤ check_capitalization t := by
  simp only [check_capitalization]
  split_ifs with h1 h2 h3 h4 h5 <;> try norm_num
  positivity

theorem check_capitalization_le_one (t : List Char) : check_capitalization t ≤ 1 := by
  simp only [check_capitalization]
  split_ifs with h1 h2 h3 h4 h5 <;> try norm_num
  rw [not_lt] at h5
  linarith

theorem check_length_nonneg (t : List Char) (hl : String) : 0 ≤ check_length t hl := by
  simp only [check_length]
  split_ifs with h1 h2
  · have hlt : (wordCount t : ℚ) < 50 := by exact_mod_cast h1
    linarith
  · norm_num
  · norm_num

theorem check_length_le_one (t : List Char) (hl : String) : check_length t hl ≤ 1 := by
  simp only [check_length]
  split_ifs with h1 h2
  · have hge : (0 : ℚ) ≤ (wordCount t : ℚ) := Nat.cast_nonneg _
    linarith
  · norm_num
  · norm_num

/-- Unfolding of analyze in the successful (non-empty combined text) case. -/
theorem analyze_of_ne (h b : String) (hne : combined h b ≠ []) :
    analyze h b =
      (clamp01 (check_sensationalism (combined h b) * (3 / 10) +
          check_punctuation (combined h b) * (1 / 5) +
          check_capitalization (combined h b) * (1 / 5) +
          check_length (combined h b) h * (3 / 20) +
          check_emotional_content (combined h b) * (3 / 20)),
        .ok { sensational_score := pyRound3 (check_sensationalism (combined h b))
              punctuation_score := pyRound3 (check_punctuation (combined h b))
              caps_score := pyRound3 (check_capitalization (combined h b))
              length_score := pyRound3 (check_length (combined h b) h)
              emotional_score := pyRound3 (check_emotional_content (combined h b))
              overall_risk := pyRound3 (clamp01 (check_sensationalism (combined h b) * (3 / 10) +
                check_punctuation (combined h b) * (1 / 5) +
                check_capitalization (combined h b) * (1 / 5) +
                check_length (combined h b) h * (3 / 20) +
                check_emotional_content (combined h b) * (3 / 20)))
              flags := generate_flags (check_sensationalism (combined h b))
                (check_punctuation (combined h b)) (check_capitalization (combined h b))
                (check_length (combined h b) h) }) := by
  simp only [analyze]
  rw [if_neg hne]

/-! ## The claims -/

/-- C1: for every (headline, body) whose trimmed concatenation is non-empty,
the risk score returned by analyze is the weighted combination
sensational*0.30 + punctuation*0.20 + caps*0.20 + length*0.15 +
emotional*0.15 clamped to [0,1], and the risk score and all five sub-scores
lie in [0,1]. -/
theorem C1_overall_weighted_and_bounded (h b : String) (hne : combined h b ≠ []) :
    (analyze h b).1 =
      clamp01 (check_sensationalism (combined h b) * (3 / 10) +
        check_punctuation (combined h b) * (1 / 5) +
        check_capitalization (combined h b) * (1 / 5) +
        check_length (combined h b) h * (3 / 20) +
        check_emotional_content (combined h b) * (3 / 20)) ∧
    (0 ≤ (analyze h b).1 ∧ (analyze h b).1 ≤ 1) ∧
    (0 ≤ check_sensationalism (combined h b) ∧ check_sensationalism (combined h b) ≤ 1) ∧
    (0 ≤ check_punctuation (combined h b) ∧ check_punctuation (combined h b) ≤ 1) ∧
    (0 ≤ check_capitalization (combined h b) ∧ check_capitalization (combined h b) ≤ 1) ∧
    (0 ≤ check_length (combined h b) h ∧ check_length (combined h b) h ≤ 1) ∧
    (0 ≤ check_emotional_content (combined h b) ∧ check_emotional_content (combined h b) ≤ 1) := by
  rw [analyze_of_ne h b hne]
  exact ⟨rfl, ⟨clamp01_nonneg _, clamp01_le_one _⟩,
    ⟨check_sensationalism_nonneg _, check_sensationalism_le_one _⟩,
    ⟨check_punctuation_nonneg _, check_punctuation_le_one _⟩,
    ⟨check_capitalization_nonneg _, check_capitalization_le_one _⟩,
    ⟨check_length_nonneg _ _, check_length_le_one _ _⟩,
    ⟨check_emotional_content_nonneg _, check_emotional_content_le_one _⟩⟩

/-- Witness for C1 at the concrete non-empty input ("a", ""). -/
theorem C1_witness : combined "a" "" ≠ [] ∧ (0 ≤ (analyze "a" "").1 ∧ (analyze "a" "").1 ≤ 1) :=
  ⟨by decide, (C1_overall_weighted_and_bounded "a" "" (by decide)).2.1⟩

/-- C2: for every (headline, body) whose trimmed concatenation is empty,
analyze returns the error outcome (the "Empty text" error dictionary) as a
value rather than raising, and computes no sub-scores. -/
theorem C2_empty_input_error (h b : String) (he : combined h b = []) :
    analyze h b = (0, AnalysisOutcome.error "Empty text") := by
  simp only [analyze]
  rw [if_pos he]

/-- Witness for C2 at the concrete input ("", ""). -/
theorem C2_witness :
    combined "" "" = [] ∧ analyze "" "" = (0, AnalysisOutcome.error "Empty text") :=
  ⟨by decide, C2_empty_input_error "" "" (by decide)⟩

/-- C10 (implicit): on empty trimmed input, analyze still returns 0.0 as the
numeric first component next to the error indicator, so a caller reading only
the score sees minimum risk (verdict "LOW RISK") rather than a
distinguishable failure value. -/
theorem C10_empty_score_is_zero (h b : String) (he : combined h b = []) :
    (analyze h b).1 = 0 ∧
    get_verdict (analyze h b).1 = "LOW RISK" ∧
    (analyze h b).2 = AnalysisOutcome.error "Empty text" := by
  have hz : analyze h b = (0, AnalysisOutcome.error "Empty text") := by
    simp only [analyze]
    rw [if_pos he]
  rw [hz]
  refine ⟨rfl, ?_, rfl⟩
  norm_num [get_verdict]

/-- Witness for C10 at the concrete input ("", ""). -/
theorem C10_witness : (analyze "" "").1 = 0 ∧ get_verdict (analyze "" "").1 = "LOW RISK" :=
  ⟨(C10_empty_score_is_zero "" "" (by decide)).1, (C10_empty_score_is_zero "" "" (by decide)).2.1⟩

/-- The uppercase fraction of the alphabetic characters of a text (the
caps_ratio variable of _check_capitalization). -/
def capsFrac (text : List Char) : ℚ :=
  ((text.filter Char.isAlpha).countP Char.isUpper : ℚ) / ((text.filter Char.isAlpha).length : ℚ)

/-- Unfolding of check_capitalization when alphabetic characters exist. -/
theorem check_capitalization_eq (t : List Char) (hne : t.filter Char.isAlpha ≠ []) :
    check_capitalization t =
      if 3 / 5 < capsFrac t then 1
      else if 2 / 5 < capsFrac t then 7 / 10
      else if 1 / 5 < capsFrac t then 2 / 5
      else capsFrac t * 2 := by
  have ht : t ≠ [] := fun h0 => hne (by rw [h0]; rfl)
  simp only [check_capitalization, capsFrac]
  rw [if_neg ht, if_neg hne]

/-- The five-letter text AAAbb, whose uppercase fraction is exactly 0.6. -/
def aaabb : List Char := ['A', 'A', 'A', 'b', 'b']

theorem capsFrac_aaabb : capsFrac aaabb = 3 / 5 := by
  have h1 : aaabb.filter Char.isAlpha = aaabb := by decide
  have h2 : aaabb.countP Char.isUpper = 3 := by decide
  have h3 : aaabb.length = 5 := by decide
  simp only [capsFrac]
  rw [h1, h2, h3]
  norm_num

theorem check_capitalization_aaabb : check_capitalization aaabb = 7 / 10 := by
  rw [check_capitalization_eq aaabb (by decide), capsFrac_aaabb]
  norm_num

/-- C3: the capitalization sub-score is 0.0 without alphabetic characters;
otherwise it is 1.0 for ratio > 0.6, 0.7 for 0.4 < ratio ≤ 0.6, 0.4 for
0.2 < ratio ≤ 0.4, and ratio × 2 below; at ratio exactly 0.6 (text AAAbb)
it is 0.7 (strict greater-than at every breakpoint). -/
theorem C3_caps_piecewise (text : List Char) :
    (text.filter Char.isAlpha = [] → check_capitalization text = 0) ∧
    (text.filter Char.isAlpha ≠ [] →
      ((3 / 5 < capsFrac text → check_capitalization text = 1) ∧
       (2 / 5 < capsFrac text ∧ capsFrac text ≤ 3 / 5 → check_capitalization text = 7 / 10) ∧
       (1 / 5 < capsFrac text ∧ capsFrac text ≤ 2 / 5 → check_capitalization text = 2 / 5) ∧
       (capsFrac text ≤ 1 / 5 → check_capitalization text = capsFrac text * 2))) ∧
    capsFrac aaabb = 3 / 5 ∧
    check_capitalization aaabb = 7 / 10 := by
  refine ⟨?_, ?_, capsFrac_aaabb, check_capitalization_aaabb⟩
  · intro hf
    simp [check_capitalization, hf]
  · intro hne
    refine ⟨?_, ?_, ?_, ?_⟩
    · intro hA
      rw [check_capitalization_eq text hne, if_pos hA]
    · rintro ⟨hgt, hle⟩
      rw [check_capitalization_eq text hne, if_neg (not_lt.mpr hle), if_pos hgt]
    · rintro ⟨hgt, hle⟩
      rw [check_capitalization_eq text hne, if_neg (not_lt.mpr (by linarith)),
        if_neg (not_lt.mpr hle), if_pos hgt]
    · intro hle
      rw [check_capitalization_eq text hne, if_neg (not_lt.mpr (by linarith)),
        if_neg (not_lt.mpr (by linarith)), if_neg (not_lt.mpr hle)]

/-- Witness for C3: the text AAAbb has alphabetic characters, its uppercase
fraction lies in (0.4, 0.6], and it scores 0.7. -/
theorem C3_witness :
    aaabb.filter Char.isAlpha ≠ [] ∧ check_capitalization aaabb = 7 / 10 := by
  have hc1 : 2 / 5 < capsFrac aaabb := by
    rw [capsFrac_aaabb]
    norm_num
  have hc2 : capsFrac aaabb ≤ 3 / 5 := le_of_eq capsFrac_aaabb
  exact ⟨by decide, ((C3_caps_piecewise aaabb).2.1 (by decide)).2.1 ⟨hc1, hc2⟩⟩

/-- A text of exactly fifty whitespace-delimited words. -/
def repWordAux : Nat → List Char
  | 0 => []
  | n + 1 => 'a' :: ' ' :: repWordAux n

/-- Forty-nine words followed by one more: fifty words in all. -/
def fiftyWords : List Char := repWordAux 49 ++ ['a']

/-- C4: the length sub-score is 1 − word_count/50 for word_count < 50,
exactly 0.3 for 50 ≤ word_count < 100 (in particular at exactly 50), and
0.0 for word_count ≥ 100; the headline argument has no effect. -/
theorem C4_length_piecewise (text : List Char) (h1 h2 : String) :
    check_length text h1 =
      (if wordCount text < 50 then 1 - (wordCount text : ℚ) / 50
       else if 50 ≤ wordCount text ∧ wordCount text < 100 then 3 / 10
       else 0) ∧
    check_length text h1 = check_length text h2 ∧
    (wordCount text = 50 → check_length text h1 = 3 / 10) ∧
    (100 ≤ wordCount text → check_length text h1 = 0) := by
  refine ⟨?_, rfl, ?_, ?_⟩
  · simp only [check_length]
    by_cases hA : wordCount text < 50
    · rw [if_pos hA, if_pos hA]
    · rw [if_neg hA, if_neg hA]
      have h50 : 50 ≤ wordCount text := Nat.le_of_not_lt hA
      by_cases hB : wordCount text < 100
      · rw [if_pos hB, if_pos (And.intro h50 hB)]
      · rw [if_neg hB,
          if_neg fun hc : 50 ≤ wordCount text ∧ wordCount text < 100 => hB hc.2]
  · intro h50
    simp only [check_length]
    rw [h50, if_neg (by norm_num), if_pos (by norm_num)]
  · intro h100
    simp only [check_length]
    rw [if_neg (by omega), if_neg (by omega)]

/-- Witness for C4: a concrete fifty-word text scores exactly 0.3. -/
theorem C4_witness :
    wordCount fiftyWords = 50 ∧ check_length fiftyWords "x" = 3 / 10 :=
  ⟨by decide, (C4_length_piecewise fiftyWords "x" "y").2.2.1 (by decide)⟩

/-- Evaluation of the punctuation score on "!!": the two exclamation marks
count once each as raw occurrences and again as one multi-exclaim run. -/
theorem check_punctuation_bangbang : check_punctuation ['!', '!'] = 11 / 15 := by
  have h1 : countChar '!' ['!', '!'] = 2 := by decide
  have h2 : countChar '?' ['!', '!'] = 0 := by decide
  have h3 : countInterrobang ['!', '!'] = 0 := by decide
  have h4 : countRunsGe '.' 3 ['!', '!'] = 0 := by decide
  have h5 : countRunsGe '!' 2 ['!', '!'] = 1 := by decide
  simp only [check_punctuation, h1, h2, h3, h4, h5]
  norm_num [min_def]

/-- C5: the punctuation sub-score is min(((exclaim/3) + (question/3) +
(interrobang × 2) + (ellipsis_runs × 1.5) + (multi_exclaim_runs × 3)) / 5, 1),
with raw counts of ! and ?, non-overlapping counts of the sequence ?!, and
maximal runs of 3+ dots and 2+ exclamation marks; the final conjunct shows
the intentional double-counting: "!!" contributes both 2 raw exclamation
marks and one multi-exclaim run, scoring (2/3 + 3)/5 = 11/15. -/
theorem C5_punctuation_formula (text : List Char) :
    check_punctuation text =
      min (((countChar '!' text : ℚ) / 3 + (countChar '?' text : ℚ) / 3 +
        (countInterrobang text : ℚ) * 2 + (countRunsGe '.' 3 text : ℚ) * (3 / 2) +
        (countRunsGe '!' 2 text : ℚ) * 3) / 5) 1 ∧
    countInterrobang ('?' :: '!' :: '?' :: '!' :: []) = 2 ∧
    countRunsGe '!' 2 ('!' :: '!' :: '!' :: []) = 1 ∧
    countRunsGe '.' 3 ('.' :: '.' :: []) = 0 ∧
    countRunsGe '.' 3 ('.' :: '.' :: '.' :: '.' :: []) = 1 ∧
    countRunsGe '.' 3 ('.' :: '.' :: '.' :: ' ' :: '.' :: '.' :: '.' :: []) = 2 ∧
    check_punctuation ('!' :: '!' :: []) = 11 / 15 :=
  ⟨rfl, by decide, by decide, by decide, by decide, by decide,
    check_punctuation_bangbang⟩

/-! ## Flag characterization (C6) -/

/-- Membership, order and exactness of the generated flag list. -/
theorem generate_flags_mem (se pu ca le : ℚ) :
    (flagSensational ∈ generate_flags se pu ca le ↔ 1 / 2 < se) ∧
    (flagPunctuation ∈ generate_flags se pu ca le ↔ 3 / 5 < pu) ∧
    (flagCaps ∈ generate_flags se pu ca le ↔ 3 / 5 < ca) ∧
    (flagShort ∈ generate_flags se pu ca le ↔ 7 / 10 < le) ∧
    List.Sublist (generate_flags se pu ca le)
      [flagSensational, flagPunctuation, flagCaps, flagShort] ∧
    (∀ f ∈ generate_flags se pu ca le,
      f = flagSensational ∨ f = flagPunctuation ∨ f = flagCaps ∨ f = flagShort) := by
  have hsub : List.Sublist (generate_flags se pu ca le)
      [flagSensational, flagPunctuation, flagCaps, flagShort] := by
    have p1 : List.Sublist (if 1 / 2 < se then [flagSensational] else []) [flagSensational] := by
      split_ifs
      · exact List.Sublist.refl _
      · exact List.nil_sublist _
    have p2 : List.Sublist (if 3 / 5 < pu then [flagPunctuation] else []) [flagPunctuation] := by
      split_ifs
      · exact List.Sublist.refl _
      · exact List.nil_sublist _
    have p3 : List.Sublist (if 3 / 5 < ca then [flagCaps] else []) [flagCaps] := by
      split_ifs
      · exact List.Sublist.refl _
      · exact List.nil_sublist _
    have p4 : List.Sublist (if 7 / 10 < le then [flagShort] else []) [flagShort] := by
      split_ifs
      · exact List.Sublist.refl _
      · exact List.nil_sublist _
    simp only [generate_flags]
    exact ((p1.append p2).append p3).append p4
  have m1 : flagSensational ∈ generate_flags se pu ca le ↔ 1 / 2 < se := by
    simp only [generate_flags, List.mem_append, List.mem_ite_nil_right, List.mem_singleton]
    simp [show flagSensational ≠ flagPunctuation from by decide,
      show flagSensational ≠ flagCaps from by decide,
      show flagSensational ≠ flagShort from by decide]
  have m2 : flagPunctuation ∈ generate_flags se pu ca le ↔ 3 / 5 < pu := by
    simp only [generate_flags, List.mem_append, List.mem_ite_nil_right, List.mem_singleton]
    simp [show flagPunctuation ≠ flagSensational from by decide,
      show flagPunctuation ≠ flagCaps from by decide,
      show flagPunctuation ≠ flagShort from by decide]
  have m3 : flagCaps ∈ generate_flags se pu ca le ↔ 3 / 5 < ca := by
    simp only [generate_flags, List.mem_append, List.mem_ite_nil_right, List.mem_singleton]
    simp [show flagCaps ≠ flagSensational from by decide,
      show flagCaps ≠ flagPunctuation from by decide,
      show flagCaps ≠ flagShort from by decide]
  have m4 : flagShort ∈ generate_flags se pu ca le ↔ 7 / 10 < le := by
    simp only [generate_flags, List.mem_append, List.mem_ite_nil_right, List.mem_singleton]
    simp [show flagShort ≠ flagSensational from by decide,
      show flagShort ≠ flagPunctuation from by decide,
      show flagShort ≠ flagCaps from by decide]
  exact ⟨m1, m2, m3, m4, hsub, fun f hf => by simpa using hsub.subset hf⟩

/-- The combined text of the input ("breaking truth", ""). -/
theorem combined_bt : combined "breaking truth" "" = "breaking truth".data := by decide

theorem sens_bt : check_sensationalism ("breaking truth".data) = 2 / 3 := by
  have hk : keywordCount sensational_keywords ("breaking truth".data) = 2 := by decide
  simp only [check_sensationalism, hk]
  norm_num [min_def]

theorem punct_bt : check_punctuation ("breaking truth".data) = 0 := by
  have h1 : countChar '!' ("breaking truth".data) = 0 := by decide
  have h2 : countChar '?' ("breaking truth".data) = 0 := by decide
  have h3 : countInterrobang ("breaking truth".data) = 0 := by decide
  have h4 : countRunsGe '.' 3 ("breaking truth".data) = 0 := by decide
  have h5 : countRunsGe '!' 2 ("breaking truth".data) = 0 := by decide
  simp only [check_punctuation, h1, h2, h3, h4, h5]
  norm_num [min_def]

theorem caps_bt : check_capitalization ("breaking truth".data) = 0 := by
  have hf : capsFrac ("breaking truth".data) = 0 := by
    have h2 : (("breaking truth".data).filter Char.isAlpha).countP Char.isUpper = 0 := by decide
    simp only [capsFrac]
    rw [h2]
    norm_num
  rw [check_capitalization_eq _ (by decide), hf]
  norm_num

theorem length_bt : check_length ("breaking truth".data) "breaking truth" = 24 / 25 := by
  have hw : wordCount ("breaking truth".data) = 2 := by decide
  simp only [check_length]
  rw [hw, if_pos (by norm_num)]
  norm_num

/-- The flag list of the analysis of ("breaking truth", ""). -/
theorem flags_bt :
    flagsOfOutcome (analyze "breaking truth" "").2 = [flagSensational, flagShort] := by
  rw [analyze_of_ne "breaking truth" "" (by decide)]
  show generate_flags (check_sensationalism (combined "breaking truth" ""))
      (check_punctuation (combined "breaking truth" ""))
      (check_capitalization (combined "breaking truth" ""))
      (check_length (combined "breaking truth" "") "breaking truth") =
    [flagSensational, flagShort]
  rw [combined_bt, sens_bt, punct_bt, caps_bt, length_bt]
  simp only [generate_flags]
  rw [if_pos (by norm_num), if_neg (by norm_num), if_neg (by norm_num),
    if_pos (by norm_num)]
  rfl

/-- C6 counterexample: in the analysis of ("breaking truth", ""), the
sensational and length sub-scores strictly exceed their thresholds, yet the
flag list does not contain the strings quoted by the claim: the emitted
strings carry a warning-sign emoji and capitalized wording. -/
theorem C6_counterexample :
    (1 / 2 < check_sensationalism (combined "breaking truth" "") ∧
      7 / 10 < check_length (combined "breaking truth" "") "breaking truth") ∧
    flagsOfOutcome (analyze "breaking truth" "").2 = [flagSensational, flagShort] ∧
    "sensationalist language detected" ∉ flagsOfOutcome (analyze "breaking truth" "").2 ∧
    "suspiciously short content" ∉ flagsOfOutcome (analyze "breaking truth" "").2 := by
  refine ⟨⟨?_, ?_⟩, flags_bt, ?_, ?_⟩
  · rw [combined_bt, sens_bt]
    norm_num
  · rw [combined_bt, length_bt]
    norm_num
  · rw [flags_bt]
    decide
  · rw [flags_bt]
    decide

/-- C6 (amended): for every successful analysis the flag list contains
exactly the emitted warning strings (with their "⚠️ " and capitalized
wording as in the source) whose threshold is strictly exceeded, evaluated
independently and in the fixed order
sensational, punctuation, caps, length. -/
theorem C6_flags_exact (h b : String) (hne : combined h b ≠ []) :
    (flagSensational ∈ flagsOfOutcome (analyze h b).2 ↔
      1 / 2 < check_sensationalism (combined h b)) ∧
    (flagPunctuation ∈ flagsOfOutcome (analyze h b).2 ↔
      3 / 5 < check_punctuation (combined h b)) ∧
    (flagCaps ∈ flagsOfOutcome (analyze h b).2 ↔
      3 / 5 < check_capitalization (combined h b)) ∧
    (flagShort ∈ flagsOfOutcome (analyze h b).2 ↔
      7 / 10 < check_length (combined h b) h) ∧
    List.Sublist (flagsOfOutcome (analyze h b).2)
      [flagSensational, flagPunctuation, flagCaps, flagShort] ∧
    (∀ f ∈ flagsOfOutcome (analyze h b).2,
      f = flagSensational ∨ f = flagPunctuation ∨ f = flagCaps ∨ f = flagShort) := by
  rw [analyze_of_ne h b hne]
  exact generate_flags_mem (check_sensationalism (combined h b))
    (check_punctuation (combined h b)) (check_capitalization (combined h b))
    (check_length (combined h b) h)

/-- Witness for C6 (amended) at the concrete input ("breaking truth", ""). -/
theorem C6_witness :
    combined "breaking truth" "" ≠ [] ∧
      flagSensational ∈ flagsOfOutcome (analyze "breaking truth" "").2 := by
  refine ⟨by decide, ?_⟩
  apply ((C6_flags_exact "breaking truth" "" (by decide)).1).mpr
  rw [combined_bt, sens_bt]
  norm_num

/-- C7: get_verdict returns HIGH RISK for s > 0.7, MODERATE RISK for
0.4 < s ≤ 0.7, LOW RISK otherwise; predict_news maps its final score
through the identical thresholds, and reports confidence (1 − final)·100
instead of final·100 exactly when final ≤ 0.4. -/
theorem C7_verdict_thresholds (s : ℚ) :
    (get_verdict s = "HIGH RISK" ↔ 7 / 10 < s) ∧
    (get_verdict s = "MODERATE RISK" ↔ (2 / 5 < s ∧ s ≤ 7 / 10)) ∧
    (get_verdict s = "LOW RISK" ↔ s ≤ 2 / 5) ∧
    (7 / 10 < s → (predict_verdict s).1 = "HIGH RISK - Likely Fake News") ∧
    (2 / 5 < s ∧ s ≤ 7 / 10 → (predict_verdict s).1 = "MODERATE RISK - Verify Sources") ∧
    (s ≤ 2 / 5 → (predict_verdict s).1 = "LOW RISK - Appears Legitimate") ∧
    (predict_verdict s).2.2 = if s ≤ 2 / 5 then (1 - s) * 100 else s * 100 := by
  refine ⟨?_, ?_, ?_, ?_, ?_, ?_, ?_⟩
  · simp only [get_verdict]
    split_ifs with hA hB
    · simp [hA]
    · exact iff_of_false (by decide) hA
    · exact iff_of_false (by decide) hA
  · simp only [get_verdict]
    split_ifs with hA hB
    · exact iff_of_false (by decide) fun hc => (not_lt.mpr hc.2) hA
    · exact iff_of_true rfl ⟨hB, not_lt.mp hA⟩
    · exact iff_of_false (by decide) fun hc => hB hc.1
  · simp only [get_verdict]
    split_ifs with hA hB
    · exact iff_of_false (by decide) fun hc => absurd hA (by linarith)
    · exact iff_of_false (by decide) fun hc => (not_le.mpr hB) hc
    · exact iff_of_true rfl (not_lt.mp hB)
  · intro hA
    simp only [predict_verdict]
    rw [if_pos hA]
  · rintro ⟨hB, hle⟩
    simp only [predict_verdict]
    rw [if_neg (not_lt.mpr hle), if_pos hB]
  · intro hle
    simp only [predict_verdict]
    rw [if_neg (not_lt.mpr (show s ≤ 7 / 10 by linarith)), if_neg (not_lt.mpr hle)]
  · simp only [predict_verdict]
    by_cases hc3 : s ≤ 2 / 5
    · rw [if_pos hc3, if_neg (not_lt.mpr (show s ≤ 7 / 10 by linarith)),
        if_neg (not_lt.mpr hc3)]
    · rw [if_neg hc3]
      have hlt : 2 / 5 < s := not_le.mp hc3
      by_cases hc1 : 7 / 10 < s
      · rw [if_pos hc1]
      · rw [if_neg hc1, if_pos hlt]

/-- Witness for C7 at the scores 0.8, 0.5, 0.2. -/
theorem C7_witness :
    (predict_verdict (4 / 5)).1 = "HIGH RISK - Likely Fake News" ∧
    (predict_verdict (1 / 2)).1 = "MODERATE RISK - Verify Sources" ∧
    (predict_verdict (1 / 5)).1 = "LOW RISK - Appears Legitimate" :=
  ⟨(C7_verdict_thresholds (4 / 5)).2.2.2.1 (by norm_num),
   (C7_verdict_thresholds (1 / 2)).2.2.2.2.1 ⟨by norm_num, by norm_num⟩,
   (C7_verdict_thresholds (1 / 5)).2.2.2.2.2.1 (by norm_num)⟩

/-! ## Whitespace trimming of the combined text (C8) -/

theorem dropWhile_append_ws (p : Char → Bool) (l1 l2 : List Char)
    (h : ∀ c ∈ l1, p c = true) : (l1 ++ l2).dropWhile p = l2.dropWhile p := by
  induction l1 with
  | nil => rfl
  | cons c cs ih =>
      have hc := h c (List.mem_cons_self c cs)
      simp only [List.cons_append, List.dropWhile_cons, hc, if_true]
      exact ih fun x hx => h x (List.mem_cons_of_mem c hx)

theorem dropWhile_append_of_ne (p : Char → Bool) (l1 l2 : List Char)
    (h : l1.dropWhile p ≠ []) : (l1 ++ l2).dropWhile p = l1.dropWhile p ++ l2 := by
  induction l1 with
  | nil => exact absurd rfl h
  | cons c cs ih =>
      by_cases hc : p c = true
      · have h2 : cs.dropWhile p ≠ [] := by
          simpa [List.dropWhile_cons, hc] using h
        simp only [List.cons_append, List.dropWhile_cons, hc, if_true]
        exact ih h2
      · simp [List.dropWhile_cons, hc]

theorem pyStrip_ws_left (s ws : List Char) (h : ∀ c ∈ ws, pyIsSpace c = true) :
    pyStrip (ws ++ s) = pyStrip s := by
  simp only [pyStrip]
  rw [dropWhile_append_ws _ _ _ h]

theorem pyStrip_ws_right (s ws : List Char) (h : ∀ c ∈ ws, pyIsSpace c = true) :
    pyStrip (s ++ ws) = pyStrip s := by
  simp only [pyStrip]
  by_cases hd : s.dropWhile pyIsSpace = []
  · have hall : ∀ c ∈ s, pyIsSpace c = true := List.dropWhile_eq_nil_iff.mp hd
    rw [dropWhile_append_ws _ _ _ hall, List.dropWhile_eq_nil_iff.mpr h, hd]
  · rw [dropWhile_append_of_ne _ _ _ hd, List.reverse_append,
      dropWhile_append_ws _ _ _ fun c hc => h c (by simpa using hc)]

/-- C8: the text all sub-scores are computed over is the whitespace-trimmed
concatenation of headline and body separated by a single space, and
caller-side leading/trailing whitespace does not change it (the scorer
itself trims; no pre-trimming is assumed). -/
theorem C8_combined_is_trimmed (h b : String) (pre post : List Char)
    (hpre : ∀ c ∈ pre, pyIsSpace c = true) (hpost : ∀ c ∈ post, pyIsSpace c = true) :
    combined h b = pyStrip (h.data ++ ' ' :: b.data) ∧
    combined (String.mk (pre ++ h.data)) (String.mk (b.data ++ post)) = combined h b := by
  refine ⟨rfl, ?_⟩
  show pyStrip ((pre ++ h.data) ++ ' ' :: (b.data ++ post)) = pyStrip (h.data ++ ' ' :: b.data)
  have e1 : (pre ++ h.data) ++ ' ' :: (b.data ++ post) =
      pre ++ ((h.data ++ ' ' :: b.data) ++ post) := by
    simp [List.append_assoc]
  rw [e1, pyStrip_ws_left _ _ hpre, pyStrip_ws_right _ _ hpost]

/-- Witness for C8: a leading space on the headline and a trailing newline
on the body leave the combined text unchanged. -/
theorem C8_witness :
    combined (String.mk (' ' :: "a".data)) (String.mk ("b".data ++ ['\n'])) =
      combined "a" "b" :=
  (C8_combined_is_trimmed "a" "b" [' '] ['\n'] (by decide) (by decide)).2

/-- C9: the sensational sub-score is min(count/3, 1) for the
case-insensitive substring match count against the fixed 20-term list; it
is monotone in that count and saturates at 1.0 once the count reaches 3. -/
theorem C9_sensational_monotone_saturating :
    sensational_keywords.length = 20 ∧
    (∀ text : List Char,
      check_sensationalism text =
        min ((keywordCount sensational_keywords text : ℚ) / 3) 1) ∧
    (∀ t1 t2 : List Char,
      keywordCount sensational_keywords t1 ≤ keywordCount sensational_keywords t2 →
        check_sensationalism t1 ≤ check_sensationalism t2) ∧
    (∀ text : List Char, 3 ≤ keywordCount sensational_keywords text →
      check_sensationalism text = 1) := by
  refine ⟨by decide, fun text => rfl, ?_, ?_⟩
  · intro t1 t2 hle
    simp only [check_sensationalism]
    have hc : (keywordCount sensational_keywords t1 : ℚ) ≤
        (keywordCount sensational_keywords t2 : ℚ) := by exact_mod_cast hle
    exact min_le_min (by linarith) le_rfl
  · intro text h3
    simp only [check_sensationalism]
    have hc : (3 : ℚ) ≤ (keywordCount sensational_keywords text : ℚ) := by
      exact_mod_cast h3
    rw [min_eq_right (by linarith)]

/-- Witness for C9 on concrete texts with 1 and 3 keyword matches. -/
theorem C9_witness :
    check_sensationalism ("breaking".data) ≤
      check_sensationalism ("breaking truth scandal".data) ∧
    check_sensationalism ("breaking truth scandal".data) = 1 :=
  ⟨C9_sensational_monotone_saturating.2.2.1 _ _ (by decide),
   C9_sensational_monotone_saturating.2.2.2 _ (by decide)⟩

end FakeNews
